import Mathlib

/-!
Verification development for the Lazy-Waba chat-automation agent.

This file shallowly embeds the control-loop code of the repository:

* `src/lib/whatsapp-ocr-monitor.ts` — the polling monitor (`monitorWhatsAppConversations`
  with its inner `startPolling`, `pollWhatsAppOcr`, `stopMonitoring`);
* `src/unnamed/part_008` — `analyzeConversationChanges` and `analyzeDiscordConversation`;
* `src/lib/chat-automation/ai-responses.ts` — `generateAndSendAIResponse`;
* `src/lib/chat-automation/greetings.ts` — `sendInitialGreeting`;
* `src/lib/chat-automation/ocr-monitoring.ts` — the greeting timer of
  `setupWhatsAppMonitoring`;
* `src/lib/chat-automation/health.ts` (second half, `utils.ts` in imports) —
  `sendChatResponse`;
* `src/hooks/use-ollama.tsx` and `src/hooks/use-nebius.tsx` — the backend
  `analyzeConversation` / `generateInitialGreeting` operations.

Modelling conventions:

* The JavaScript runtime is single threaded; each `async` function is embedded as a
  pure step function from a state (the values of the mutable refs at the moment the
  function runs or resumes) to a state plus a list of observable events.  Values
  produced by external services (the Screenpipe OCR query, the language-model call)
  are passed in as explicit arguments; a call that may throw is passed as an
  `Except String` value whose `error` case models the thrown exception.
* `console.log` and the bounded `addLog` rolling log are write-only observers that no
  claim mentions; they are elided from the embedding.
* Mutable refs (`processingMessageRef`, `monitoringRef`, `initialGreetingSentRef`,
  `lastAIResponseRef`, `messageHistory`) and React state cells (`lastOcrText`,
  `previousOcrText`, `chatHistory`, `lastMessage`) become fields of `SessionState`.
-/

namespace LazyWaba

/-- Character-list version of a starts-with test: `listStartsWith needle hay` is true
when `needle` is an initial segment of `hay`. -/
def listStartsWith : List Char → List Char → Bool
  | [], _ => true
  | _ :: _, [] => false
  | a :: as, b :: bs => a == b && listStartsWith as bs

/-- Helper scanning the haystack for an occurrence of `needle`. -/
def strIncludesAux (needle : List Char) : List Char → Bool
  | [] => listStartsWith needle []
  | c :: rest => listStartsWith needle (c :: rest) || strIncludesAux needle rest

/-- JS `haystack.includes(needle)`: contiguous-substring containment. -/
def strIncludes (haystack needle : String) : Bool :=
  strIncludesAux needle.data haystack.data

/-- JS `s.trim()`: strip whitespace from both ends (ASCII whitespace suffices for
every string this code compares against). -/
def jsTrim (s : String) : String :=
  String.mk (((s.data.dropWhile Char.isWhitespace).reverse.dropWhile
    Char.isWhitespace).reverse)

/-- JS `s.toLowerCase()` (ASCII case folding suffices for the keyword searches this
code performs). -/
def jsToLowerCase (s : String) : String :=
  String.mk (s.data.map Char.toLower)

/-- `ChatMessage` from `src/unnamed/part_000` (`types.ts`): role, content, timestamp. -/
inductive Role
  | user
  | assistant
  | system
deriving Repr, DecidableEq

structure ChatMessage where
  role : Role
  content : String
  timestamp : Nat
deriving Repr, DecidableEq

/-- The structured verdict produced by the backend `analyzeConversation` operations. -/
structure ConversationVerdict where
  newMessageDetected : Bool
  shouldReply : Bool
  message : String
  sender : String
  reasoning : String
deriving Repr, DecidableEq

/-- `AIProvider` from `types.ts`. -/
inductive AIProvider
  | ollama
  | nebius
deriving Repr, DecidableEq

/-- `AppType` from `types.ts`. -/
inductive AppType
  | whatsapp
  | discord
deriving Repr, DecidableEq

/-- One entry of `APP_CONFIGS` from `types.ts`. -/
structure AppCoordinates where
  inputBoxX : Nat
  inputBoxY : Nat
  sendButtonX : Nat
  sendButtonY : Nat
deriving Repr, DecidableEq

/-- `APP_CONFIGS` from `types.ts`. -/
def APP_CONFIGS : AppType → AppCoordinates
  | AppType.whatsapp => { inputBoxX := 1300, inputBoxY := 680, sendButtonX := 720, sendButtonY := 680 }
  | AppType.discord => { inputBoxX := 600, inputBoxY := 650, sendButtonX := 670, sendButtonY := 700 }

/-! ## The WhatsApp OCR monitor (`src/lib/whatsapp-ocr-monitor.ts`)

The closure state of `monitorWhatsAppConversations`: `isRunning`, the pending
`pollingTimer` (modelled as a flag saying whether a next poll is scheduled),
`lastOcrText`, `lastTimestamp`, and `baselineInitialized` (named `baselineStarted`
here). -/

structure MonitorState where
  isRunning : Bool
  pollingTimerSet : Bool
  lastOcrText : String
  lastTimestamp : String
  baselineStarted : Bool
deriving Repr, DecidableEq

/-- Outcome of one `pipe.queryScreenpipe` call inside `pollWhatsAppOcr`:
the query may throw, return no data, or return one item with a `type` tag,
an OCR `text` and a `timestamp` (the `timestamp || new Date().toISOString()`
defaulting is folded into the supplied string). -/
inductive FetchResult
  | throws
  | noData
  | item (itemType : String) (text : String) (timestamp : String)
deriving Repr, DecidableEq

/-- Observable effects of the monitor: the `onNewOcrDetected(text, timestamp,
previousText)` callback and the `onError` callback. -/
inductive MEvent
  | ocrDetected (text : String) (timestamp : String) (previousText : String)
  | errorReported
deriving Repr, DecidableEq

/-- The closure state created at the top of `monitorWhatsAppConversations`:
`isRunning = true`, no timer yet, `lastOcrText = initialBaselineText`,
`lastTimestamp = new Date().toISOString()` (passed in as `nowIso`),
`baselineInitialized = !!initialBaselineText`. -/
def initMonitorState (initialBaselineText : String) (nowIso : String) : MonitorState :=
  { isRunning := true
    pollingTimerSet := false
    lastOcrText := initialBaselineText
    lastTimestamp := nowIso
    baselineStarted := initialBaselineText != "" }

/-- `pollWhatsAppOcr` (lines 106-164): query Screenpipe; on a thrown error report it
via `onError` and return; with no data do nothing; with an item of type `"OCR"`,
either initialize the baseline, or — when the text is non-empty and differs from
`lastOcrText` — update `lastOcrText`/`lastTimestamp` and invoke `onNewOcrDetected`
with the current text and the previous text. -/
def pollWhatsAppOcr (s : MonitorState) (fetched : FetchResult) : MonitorState × List MEvent :=
  match fetched with
  | FetchResult.throws => (s, [MEvent.errorReported])
  | FetchResult.noData => (s, [])
  | FetchResult.item itemType text timestamp =>
    if itemType = "OCR" then
      if s.baselineStarted = false then
        ({ s with lastOcrText := text, lastTimestamp := timestamp, baselineStarted := true }, [])
      else if text ≠ "" ∧ text ≠ s.lastOcrText then
        ({ s with lastOcrText := text, lastTimestamp := timestamp },
         [MEvent.ocrDetected text timestamp s.lastOcrText])
      else (s, [])
    else (s, [])

/-- One iteration of `startPolling` (lines 88-104): clear any pending timer, return
immediately when not running, otherwise run one poll and — in the `.finally` —
schedule the next poll exactly when still running.  The returned `Bool` records
whether a poll actually ran this cycle. -/
def startPollingCycle (s : MonitorState) (fetched : FetchResult) :
    MonitorState × List MEvent × Bool :=
  let s0 := { s with pollingTimerSet := false }
  if s0.isRunning = false then (s0, [], false)
  else
    let r := pollWhatsAppOcr s0 fetched
    if r.1.isRunning then ({ r.1 with pollingTimerSet := true }, r.2, true)
    else (r.1, r.2, true)

/-- `stopMonitoring` (lines 172-180): set `isRunning = false` and clear the pending
timer. -/
def stopMonitoring (s : MonitorState) : MonitorState :=
  { s with isRunning := false, pollingTimerSet := false }

/-- `updateBaseline` (lines 182-186). -/
def updateBaseline (s : MonitorState) (newBaseline : String) : MonitorState :=
  { s with lastOcrText := newBaseline, baselineStarted := true }

/-- A sequence of `pollWhatsAppOcr` runs, one per fetched result, accumulating the
emitted events. -/
def runMonitorPolls : MonitorState → List FetchResult → MonitorState × List MEvent
  | s, [] => (s, [])
  | s, f :: rest =>
    ((runMonitorPolls (pollWhatsAppOcr s f).1 rest).1,
     (pollWhatsAppOcr s f).2 ++ (runMonitorPolls (pollWhatsAppOcr s f).1 rest).2)

/-- A fetch outcome that carries no fresh OCR signal relative to last-seen text
`lastText`: no data, a non-OCR item, or an OCR item whose text is empty or equal
to `lastText`. -/
def benignFetch (lastText : String) : FetchResult → Prop
  | FetchResult.throws => False
  | FetchResult.noData => True
  | FetchResult.item itemType text _ => itemType ≠ "OCR" ∨ text = "" ∨ text = lastText

instance (lastText : String) (f : FetchResult) : Decidable (benignFetch lastText f) := by
  cases f <;> simp [benignFetch] <;> infer_instance

/-! ## Session state and the conversation-analysis steps (`src/unnamed/part_008`)

`SessionState` gathers the mutable refs and React state cells shared by the
chat-automation callbacks. -/

structure SessionState where
  monitoring : Bool
  processingMessage : Bool
  initialGreetingSent : Bool
  lastOcrText : String
  previousOcrText : String
  lastAIResponse : String
  lastMessage : String
  chatHistory : List ChatMessage
  messageHistory : List String
deriving Repr, DecidableEq

/-- Observable session-level effects: the backend `analyzeConversation` being invoked
(with the previous/current OCR texts, the last AI response and the formatted recent
history it receives), the fire-and-forget `generateAndSendResponse(newMessage)`
dispatch, and a completed `sendChatResponse` send. -/
inductive Event
  | analyzerCalled (previousText : String) (currentText : String)
      (lastResponse : String) (recentMessages : String)
  | replyStarted (message : String)
  | sent (text : String)
deriving Repr, DecidableEq

def eventIsReplyStart : Event → Bool
  | Event.replyStarted _ => true
  | _ => false

def eventIsSend : Event → Bool
  | Event.sent _ => true
  | _ => false

def eventIsAnalyzerCall : Event → Bool
  | Event.analyzerCalled _ _ _ _ => true
  | _ => false

/-- The `recentMessages` context string built in `analyzeConversationChanges`
(part_008 lines 108-111): the last 4 chat-history entries rendered as
`AI: content` or `User: content` and joined with newlines. -/
def formatRecentMessages (chatHistory : List ChatMessage) : String :=
  String.intercalate "\n"
    ((chatHistory.drop (chatHistory.length - 4)).map fun msg =>
      (if msg.role = Role.assistant then "AI" else "User") ++ ": " ++ msg.content)

/-- `analyzeConversationChanges` (part_008 lines 33-174).  The backend
`analyzeConversation` call is the only awaited operation; its outcome is passed in
as `verdict` (`Except.error` models a thrown backend error, caught by the
surrounding `try`/`catch`).  Control flow, in source order: empty-text skip,
`processingMessageRef` skip, `previousText || previousOcrText` defaulting
(JS `||`: both `undefined` and `""` fall back), unchanged-text skip,
`setLastOcrText(currentText)`, baseline storage when no previous text exists,
the analyzer call, the `newMessageDetected && shouldReply` branch with the
own-response echo guard (`lastResponse && newMessage.includes(lastResponse)`),
state/history updates, `processingMessageRef.current = true`, and the
(un-awaited) `generateAndSendResponse(newMessage)` dispatch. -/
def analyzeConversationChanges (s : SessionState) (currentText : String)
    (previousTextArg : Option String) (verdict : Except String ConversationVerdict)
    (now : Nat) : SessionState × List Event :=
  if currentText = "" then (s, [])
  else if s.processingMessage = true then (s, [])
  else
    let previousText :=
      match previousTextArg with
      | some p => if p = "" then s.previousOcrText else p
      | none => s.previousOcrText
    if currentText = previousText then (s, [])
    else
      let s1 := { s with lastOcrText := currentText }
      if previousText = "" then ({ s1 with previousOcrText := currentText }, [])
      else
        let lastResponse := s.lastAIResponse
        let recentMessages := formatRecentMessages s.chatHistory
        let callEv := Event.analyzerCalled previousText currentText lastResponse recentMessages
        match verdict with
        | Except.error _ => (s1, [callEv])
        | Except.ok analysis =>
          if analysis.newMessageDetected = true ∧ analysis.shouldReply = true then
            if lastResponse ≠ "" ∧ strIncludes analysis.message lastResponse = true then
              (s1, [callEv])
            else
              ({ s1 with
                  lastMessage := analysis.message
                  messageHistory := s1.messageHistory ++ [analysis.message]
                  chatHistory := s1.chatHistory ++
                    [({ role := Role.user, content := analysis.message, timestamp := now } : ChatMessage)]
                  processingMessage := true },
               [callEv, Event.replyStarted analysis.message])
          else (s1, [callEv])

/-- The Discord context record passed to `analyzeDiscordConversation`. -/
structure DiscordContext where
  type : Option String
  username : Option String
  channelName : Option String
deriving Repr, DecidableEq

/-- The `contextInstructions` string built in `analyzeDiscordConversation`
(part_008 lines 257-279).  `none` models a missing (`undefined`) context object,
for which the instructions stay the initial empty string. -/
def discordContextInstructions (discordContext : Option DiscordContext) : String :=
  match discordContext with
  | none => ""
  | some ctx =>
    if ctx.type = some "direct_message" ∧ ctx.username ≠ none ∧ ctx.username ≠ some "" then
      "This is a Discord direct message conversation with " ++
        (ctx.username.getD "") ++ ". " ++
        "Focus on messages that appear to be from them. " ++
        "Messages typically appear in the format \"Username timestamp: message content\". " ++
        "Ignore system messages and UI elements."
    else if ctx.type = some "server_channel" ∧ ctx.channelName ≠ none ∧ ctx.channelName ≠ some "" then
      "This is a Discord server conversation in the #" ++
        (ctx.channelName.getD "") ++ " channel. " ++
        "There might be multiple participants. " ++
        "Messages typically appear in the format \"Username timestamp: message content\". " ++
        "Only respond to messages that are directed to you or seem to warrant a response. " ++
        "Ignore system messages and UI elements."
    else
      "This is a Discord conversation. " ++
        "Messages typically appear with username and timestamp, then the message content. " ++
        "There might be multiple participants in the conversation."

/-- `analyzeDiscordConversation` (part_008 lines 179-350).  Same shape as
`analyzeConversationChanges` except: there is no `previousText || previousOcrText`
defaulting (the raw argument is compared), and the backend call is passed the
`contextInstructions` as a sixth argument — which both backends drop, since their
`analyzeConversation` functions declare five parameters (see the prompt-builder
definitions below). -/
def analyzeDiscordConversation (s : SessionState) (currentText : String)
    (previousTextArg : Option String) (discordContext : Option DiscordContext)
    (verdict : Except String ConversationVerdict) (now : Nat) :
    SessionState × List Event :=
  if currentText = "" then (s, [])
  else if s.processingMessage = true then (s, [])
  else if previousTextArg = some currentText then (s, [])
  else
    let s1 := { s with lastOcrText := currentText }
    match previousTextArg with
    | none => ({ s1 with previousOcrText := currentText }, [])
    | some previousText =>
      if previousText = "" then ({ s1 with previousOcrText := currentText }, [])
      else
        let lastResponse := s.lastAIResponse
        let recentMessages := formatRecentMessages s.chatHistory
        let _contextInstructions := discordContextInstructions discordContext
        let callEv := Event.analyzerCalled previousText currentText lastResponse recentMessages
        match verdict with
        | Except.error _ => (s1, [callEv])
        | Except.ok analysis =>
          if analysis.newMessageDetected = true ∧ analysis.shouldReply = true then
            if lastResponse ≠ "" ∧ strIncludes analysis.message lastResponse = true then
              (s1, [callEv])
            else
              ({ s1 with
                  lastMessage := analysis.message
                  messageHistory := s1.messageHistory ++ [analysis.message]
                  chatHistory := s1.chatHistory ++
                    [({ role := Role.user, content := analysis.message, timestamp := now } : ChatMessage)]
                  processingMessage := true },
               [callEv, Event.replyStarted analysis.message])
          else (s1, [callEv])

/-- Inputs consumed by one `analyzeConversationChanges` invocation. -/
structure AnalyzeInput where
  currentText : String
  previousTextArg : Option String
  verdict : Except String ConversationVerdict
  now : Nat

/-- A sequence of `analyzeConversationChanges` invocations (the per-poll detection
callback), threading the session state and accumulating events. -/
def runAnalyzePolls : SessionState → List AnalyzeInput → SessionState × List Event
  | s, [] => (s, [])
  | s, i :: rest =>
    ((runAnalyzePolls (analyzeConversationChanges s i.currentText i.previousTextArg i.verdict i.now).1 rest).1,
     (analyzeConversationChanges s i.currentText i.previousTextArg i.verdict i.now).2 ++
       (runAnalyzePolls (analyzeConversationChanges s i.currentText i.previousTextArg i.verdict i.now).1 rest).2)

/-! ## Response generation (`src/lib/chat-automation/ai-responses.ts`) -/

/-- The placeholder responses substituted when the chosen provider is busy
(`ollama.isProcessing`) or, for Nebius, when it is busy or no API key is set. -/
def ollamaBusyPlaceholder : String :=
  "I\u0027m still thinking about your last message. I\u0027ll respond in a moment."

def nebiusBusyPlaceholder : String :=
  "Let me think about this for a moment."

/-- `generateAndSendAIResponse` (ai-responses.ts lines 7-111), as the step that runs
when the generation call resolves (or when the placeholder short-circuits it).
`providerBusyOrNoKey` models `ollama.isProcessing` resp.
`nebius.isProcessing || !nebiusApiKey`; `genResult` is the outcome of
`generateChatResponse` (`Except.error` = a thrown error, handled by the `catch`).
On success: store the response in `lastAIResponseRef`, append it to the chat
history, and — only if `monitoringRef.current` is still true — send it via
`sendChatResponse` and record it in `messageHistory`.  The `finally` resets
`processingMessageRef` on every path. -/
def generateAndSendAIResponse (s : SessionState) (aiProvider : AIProvider)
    (providerBusyOrNoKey : Bool) (genResult : Except String String)
    (myUsername : String) (now : Nat) : SessionState × List Event :=
  let placeholder :=
    match aiProvider with
    | AIProvider.ollama => ollamaBusyPlaceholder
    | AIProvider.nebius => nebiusBusyPlaceholder
  let respRes : Except String String :=
    if providerBusyOrNoKey then Except.ok placeholder else genResult
  match respRes with
  | Except.error _ => ({ s with processingMessage := false }, [])
  | Except.ok response =>
    let s1 := { s with
        lastAIResponse := response
        chatHistory := s.chatHistory ++
          [({ role := Role.assistant, content := response, timestamp := now } : ChatMessage)] }
    if s1.monitoring = true then
      ({ s1 with
          messageHistory := s1.messageHistory ++ [myUsername ++ ": " ++ response]
          processingMessage := false },
       [Event.sent response])
    else
      ({ s1 with processingMessage := false }, [])

/-! ## Initial greeting (`src/lib/chat-automation/greetings.ts` and the timer in
`src/lib/chat-automation/ocr-monitoring.ts`) -/

/-- The hard-coded fallback greeting substituted in `sendInitialGreeting` when the
generated greeting is empty or whitespace (greetings.ts line 51). -/
def whatsappFallbackGreeting : String := "Hey there! 👋 How\u0027s your day going?"

/-- The synchronous head of `sendInitialGreeting` (greetings.ts lines 23-33), up to
the first awaited call: re-check the guard (`!monitoringRef.current ||
initialGreetingSentRef.current || processingMessageRef.current` → return), then set
`initialGreetingSentRef` and `processingMessageRef` to true.  The returned `Bool`
says whether the greeting body proceeds to the awaited generation call. -/
def sendInitialGreetingStart (s : SessionState) : SessionState × Bool :=
  if s.monitoring = false ∨ s.initialGreetingSent = true ∨ s.processingMessage = true then
    (s, false)
  else
    ({ s with initialGreetingSent := true, processingMessage := true }, true)

/-- The continuation of `sendInitialGreeting` (greetings.ts lines 41-82) that runs
when the `generateInitialGreeting` call resolves; `s` is the session state at that
moment (a `stop()` may have cleared `monitoring` in between).  On a thrown
generation error the `catch` swallows it and the `finally` resets the processing
flag.  On success the empty/whitespace check substitutes the fallback greeting,
`lastAIResponseRef` and the chat history are updated, and the greeting is sent via
`sendChatResponse` — with no re-check of `monitoringRef` before the send.  The
`finally` resets `processingMessageRef`. -/
def sendInitialGreetingFinish (s : SessionState) (myUsername : String)
    (greetResult : Except String String) (now : Nat) : SessionState × List Event :=
  match greetResult with
  | Except.error _ => ({ s with processingMessage := false }, [])
  | Except.ok g =>
    let greeting := if g = "" ∨ jsTrim g = "" then whatsappFallbackGreeting else g
    let s1 := { s with
        lastAIResponse := greeting
        chatHistory := s.chatHistory ++
          [({ role := Role.assistant, content := greeting, timestamp := now } : ChatMessage)] }
    ({ s1 with
        messageHistory := s1.messageHistory ++ [myUsername ++ ": " ++ greeting]
        processingMessage := false },
     [Event.sent greeting])

/-- The greeting timer callback armed by `setupWhatsAppMonitoring`
(ocr-monitoring.ts lines 75-83): fire `sendInitialGreeting` only when
`monitoringRef.current && !initialGreetingSentRef.current &&
!processingMessageRef.current`; the fired call immediately runs
`sendInitialGreetingStart` (its synchronous head).  The returned `Bool` says
whether the greeting body was started. -/
def greetingTimerFire (s : SessionState) : SessionState × Bool :=
  if s.monitoring = true ∧ s.initialGreetingSent = false ∧ s.processingMessage = false then
    sendInitialGreetingStart s
  else (s, false)

/-! ## The input-automation driver (`sendChatResponse` in
`src/lib/chat-automation/health.ts`, second half = `utils.ts`) -/

/-- A character matched by `.` in a JavaScript regex without the `s` flag:
anything but a line terminator (`\n`, `\r`, U+2028, U+2029). -/
def isDotChar (c : Char) : Bool :=
  !(c == '\n' || c == '\r' || c == '\u2028' || c == '\u2029')

/-- The chunking performed by `text.match(/.{1,15}|.+/g) || []` (health.ts line 84).
Global regex matching repeatedly takes, at each position, up to 15 consecutive
dot-matchable characters (the `.+` alternative never wins since `.{1,15}` is tried
first and matches whenever `.+` does), and skips over characters matched by
neither alternative — the line terminators.  Equivalently: maximal runs of
dot-matchable characters, split left-to-right into pieces of 15 with a shorter
final piece.  `acc` holds the current piece, reversed. -/
def jsChunksAux (acc : List Char) : List Char → List (List Char)
  | [] => if acc = [] then [] else [acc.reverse]
  | c :: rest =>
    if isDotChar c then
      if (c :: acc).length = 15 then (c :: acc).reverse :: jsChunksAux [] rest
      else jsChunksAux (c :: acc) rest
    else
      if acc = [] then jsChunksAux [] rest
      else acc.reverse :: jsChunksAux [] rest

/-- The chunk list `const chunks = text.match(/.{1,15}|.+/g) || []`. -/
def jsChunks (text : String) : List String :=
  (jsChunksAux [] text.data).map String.mk

/-- The independent async primitives of the input-automation interface, plus the
fixed waits the driver interleaves. -/
inductive DriverOp
  | moveMouse (x : Nat) (y : Nat)
  | sleep (ms : Nat)
  | typeText (chunk : String)
  | press (key : String)
  | click (button : String)
deriving Repr, DecidableEq

/-- The typing loop of `sendChatResponse` (health.ts lines 85-89): each chunk is
typed, followed by a 300 ms inter-chunk delay. -/
def typingOps (chunks : List String) : List DriverOp :=
  (chunks.map fun chunk => [DriverOp.typeText chunk, DriverOp.sleep 300]).flatten

/-- The operation sequence issued by `sendChatResponse` (health.ts lines 64-102) on
its success path: move the pointer to the input-box coordinate of the app, wait the
three fixed delays, type the chunks with inter-chunk delays, press `enter` once
(no click on the send button — the click path is absent from the final code), and
hold the 10-second cooldown.  An exception at any step is caught and logged and
the call returns; no retry is issued. -/
def sendChatResponseTrace (text : String) (selectedApp : AppType) : List DriverOp :=
  let config := APP_CONFIGS selectedApp
  [DriverOp.moveMouse config.inputBoxX config.inputBoxY,
   DriverOp.sleep 300, DriverOp.sleep 300, DriverOp.sleep 500]
  ++ typingOps (jsChunks text)
  ++ [DriverOp.press "enter", DriverOp.sleep 10000]

/-- The texts passed to `type`, in order. -/
def typedTexts (trace : List DriverOp) : List String :=
  trace.filterMap fun op =>
    match op with
    | DriverOp.typeText chunk => some chunk
    | _ => none

/-- The number of `press key` operations in a trace. -/
def pressCount (trace : List DriverOp) (key : String) : Nat :=
  (trace.filter fun op => op == DriverOp.press key).length

/-- The number of `click` operations in a trace. -/
def clickCount (trace : List DriverOp) : Nat :=
  (trace.filter fun op =>
    match op with
    | DriverOp.click _ => true
    | _ => false).length

/-- Concatenation of a list of strings (JS `chunks.join(\x27\x27)` semantics). -/
def joinAll : List String → String
  | [] => ""
  | s :: rest => s ++ joinAll rest

/-! ## Analyzer output parsing (`analyzeConversation` in `src/hooks/use-ollama.tsx`
lines 248-270; the identical logic appears in `src/hooks/use-nebius.tsx`
lines 324-343) -/

/-- Index of the first occurrence of `needle` in the remaining haystack, offset by
`i`. -/
def findSubAux (needle : List Char) : List Char → Nat → Option Nat
  | [], i => if listStartsWith needle [] then some i else none
  | c :: rest, i =>
    if listStartsWith needle (c :: rest) then some i else findSubAux needle rest (i + 1)

/-- `analysisText.match(/```json\s*([\s\S]*?)\s*```/)`: the whole match (`match[0]`)
runs from the first occurrence of the opening fence to the first closing fence
after it (the lazy middle group makes the closing fence the nearest one);
`none` when either fence is absent. -/
def fencedJsonMatch (analysisText : String) : Option String :=
  let cs := analysisText.data
  match findSubAux ("```json".data) cs 0 with
  | none => none
  | some i =>
    match findSubAux ("```".data) (cs.drop (i + 7)) 0 with
    | none => none
    | some j => some (String.mk ((cs.drop i).take (7 + j + 3)))

/-- `analysisText.match(/{[\s\S]*}/)`: the whole match runs from the first opening
brace to the last closing brace after it; `none` when no such pair exists. -/
def braceMatch (analysisText : String) : Option String :=
  let cs := analysisText.data
  match cs.findIdx? (fun c => c == '\x7b'), cs.reverse.findIdx? (fun c => c == '\x7d') with
  | some i, some k =>
    let j := cs.length - 1 - k
    if i < j then some (String.mk ((cs.drop i).take (j + 1 - i))) else none
  | _, _ => none

/-- `jsonMatch[0].replace(/```json|```/g, \x27\x27)`: at each position the scanner
removes `\x60\x60\x60json` if present, else `\x60\x60\x60` if present, else keeps
the character.  `fuel` bounds the recursion by the input length. -/
def removeJsonFencesAux : Nat → List Char → List Char
  | 0, _ => []
  | _, [] => []
  | fuel + 1, c :: rest =>
    if listStartsWith ("```json".data) (c :: rest) then
      removeJsonFencesAux fuel ((c :: rest).drop 7)
    else if listStartsWith ("```".data) (c :: rest) then
      removeJsonFencesAux fuel ((c :: rest).drop 3)
    else c :: removeJsonFencesAux fuel rest

def removeJsonFences (s : String) : String :=
  String.mk (removeJsonFencesAux s.data.length s.data)

/-- The `jsonStr` selected by the parsing policy: the fenced match (fences stripped)
if present, else the brace match (the same `replace` applied), else the raw text. -/
def extractJsonStr (analysisText : String) : String :=
  match fencedJsonMatch analysisText with
  | some m => removeJsonFences m
  | none =>
    match braceMatch analysisText with
    | some m => removeJsonFences m
    | none => analysisText

/-- The degraded verdict built in the `catch` arm when `JSON.parse` fails
(use-ollama.tsx lines 261-269): booleans by case-insensitive keyword search over
the raw text, `sender: "unknown"`. -/
def fallbackVerdict (analysisText : String) : ConversationVerdict :=
  { newMessageDetected :=
      strIncludes (jsToLowerCase analysisText) "new message detected" ||
        strIncludes (jsToLowerCase analysisText) "should reply"
    shouldReply :=
      strIncludes (jsToLowerCase analysisText) "should reply" ||
        strIncludes (jsToLowerCase analysisText) "new message detected"
    message := analysisText
    sender := "unknown"
    reasoning := "Failed to parse structured response" }

/-- The response-parsing tail of `analyzeConversation`, shared verbatim by both
backends: run `JSON.parse` (the platform primitive, supplied as `jsonParse`,
yielding `none` exactly when it throws or the parsed value does not shape into a
verdict) on the extracted string; on failure return the keyword fallback.  The
function is total: a parse failure never propagates an exception. -/
def analyzeConversationParse (jsonParse : String → Option ConversationVerdict)
    (analysisText : String) : ConversationVerdict :=
  match jsonParse (extractJsonStr analysisText) with
  | some verdict => verdict
  | none => fallbackVerdict analysisText

/-! ## Backend `generateInitialGreeting` (`src/hooks/use-ollama.tsx` lines 276-301,
`src/hooks/use-nebius.tsx` lines 353-406) -/

/-- The Ollama variant: `const greeting = await callOllama(prompt); return
greeting.trim();` inside `try ... finally` with no `catch` — a thrown backend
error propagates to the caller. -/
def ollamaGenerateInitialGreeting (callResult : Except String String) :
    Except String String :=
  match callResult with
  | Except.ok greeting => Except.ok (jsTrim greeting)
  | Except.error e => Except.error e

/-- The hard-coded fallback greeting returned by the `catch` of the Nebius variant
(use-nebius.tsx line 402). -/
def nebiusFallbackGreeting : String := "Hey there! 👋 How\u0027s your day going?"

/-- The Nebius variant: on success return the trimmed content; on any thrown error
the `catch` substitutes the fallback greeting. -/
def nebiusGenerateInitialGreeting (callResult : Except String String) :
    Except String String :=
  match callResult with
  | Except.ok content => Except.ok (jsTrim content)
  | Except.error _ => Except.ok nebiusFallbackGreeting

/-! ## The analysis prompts and the dropped Discord context argument

`analyzeConversation` declares five parameters in both backends
(`previousOcrText`, `currentOcrText`, `myUsername`, `lastAIResponse?`,
`recentChatHistory?`); `analyzeDiscordConversation` passes a sixth argument
(`contextInstructions`), which JavaScript call semantics silently drop.
`myUsername` is declared but never interpolated into either prompt.  The optional
parameters default with `||`, so the empty string and a missing argument behave
alike and are both modelled by `""`. -/

/-- The analysis prompt template of `analyzeConversation` in use-ollama.tsx
(lines 208-246). -/
def ollamaAnalysisPrompt (previousOcrText currentOcrText myUsername lastAIResponse
    recentChatHistory : String) : String :=
  "You are analyzing WhatsApp OCR text to detect new messages that require a response.

IMPORTANT CONTEXT FOR WHATSAPP OCR:
1. WhatsApp OCR text is messy and does not clearly label message senders
2. Your last response was: \"" ++
  (if lastAIResponse = "" then "No previous response yet" else lastAIResponse) ++
  "\"
3. Recent conversation history:
" ++
  (if recentChatHistory = "" then "No recent history available" else recentChatHistory) ++
  "

COMMON WHATSAPP OCR PATTERNS:
- Messages often appear with timestamps like \"02:53 AM\"
- WhatsApp may show \"You:\" for messages you sent
- Messages may appear without clear attribution
- Names in group chats may be highlighted or appear before messages
- UI elements like \"Type a message\" appear in the OCR

YOUR TASK:
Compare the previous OCR text with the current OCR text to find NEW MESSAGES from other people (not from you).
Specifically:
1. Ignore any text that matches or contains your last response
2. Focus on text that appears to be new and is not from you
3. Look for changes in conversation flow that indicate someone sent a new message
4. Pay special attention to text near timestamps that weren\u0027t in the previous OCR

Return your analysis as JSON in this format:
\x7b
  \"newMessageDetected\": boolean,
  \"shouldReply\": boolean,
  \"message\": \"the new message text if found\",
  \"sender\": \"the sender name if detectable\",
  \"reasoning\": \"explanation of why you think this is a new message from someone else\"
\x7d

Previous OCR text:
" ++ previousOcrText ++ "

---

Current OCR text:
" ++ currentOcrText

/-- The system prompt of `analyzeConversation` in use-nebius.tsx (lines 267-297):
the same text as the Ollama template, ending after the JSON format block. -/
def nebiusAnalysisSystemPrompt (lastAIResponse recentChatHistory : String) : String :=
  "You are analyzing WhatsApp OCR text to detect new messages that require a response.

IMPORTANT CONTEXT FOR WHATSAPP OCR:
1. WhatsApp OCR text is messy and does not clearly label message senders
2. Your last response was: \"" ++
  (if lastAIResponse = "" then "No previous response yet" else lastAIResponse) ++
  "\"
3. Recent conversation history:
" ++
  (if recentChatHistory = "" then "No recent history available" else recentChatHistory) ++
  "

COMMON WHATSAPP OCR PATTERNS:
- Messages often appear with timestamps like \"02:53 AM\"
- WhatsApp may show \"You:\" for messages you sent
- Messages may appear without clear attribution
- Names in group chats may be highlighted or appear before messages
- UI elements like \"Type a message\" appear in the OCR

YOUR TASK:
Compare the previous OCR text with the current OCR text to find NEW MESSAGES from other people (not from you).
Specifically:
1. Ignore any text that matches or contains your last response
2. Focus on text that appears to be new and is not from you
3. Look for changes in conversation flow that indicate someone sent a new message
4. Pay special attention to text near timestamps that weren\u0027t in the previous OCR

Return your analysis as JSON in this format:
\x7b
  \"newMessageDetected\": boolean,
  \"shouldReply\": boolean,
  \"message\": \"the new message text if found\",
  \"sender\": \"the sender name if detectable\",
  \"reasoning\": \"explanation of why you think this is a new message from someone else\"
\x7d"

/-- The `messages` array sent by the Nebius `analyzeConversation` (lines 299-302):
system prompt plus a user message holding the two OCR snapshots. -/
def nebiusAnalysisMessages (previousOcrText currentOcrText myUsername lastAIResponse
    recentChatHistory : String) : List (String × String) :=
  [("system", nebiusAnalysisSystemPrompt lastAIResponse recentChatHistory),
   ("user",
    "Previous OCR text:\n\n" ++ previousOcrText ++ "\n\n---\n\nCurrent OCR text:\n\n" ++
      currentOcrText)]

/-- The prompt the Ollama backend builds when invoked from
`analyzeDiscordConversation` with six arguments (part_008 lines 283-290): the
callee declares five parameters, so the sixth (`contextInstructions`) is dropped
by JavaScript call semantics and the prompt is built from the first five alone. -/
def discordOllamaAnalysisPrompt (previousText currentText myUsername lastResponse
    recentMessages contextInstructions : String) : String :=
  ollamaAnalysisPrompt previousText currentText myUsername lastResponse recentMessages

/-- The message array the Nebius backend builds when invoked from
`analyzeDiscordConversation` with six arguments (part_008 lines 291-298); the
sixth argument is dropped just as for Ollama. -/
def discordNebiusAnalysisMessages (previousText currentText myUsername lastResponse
    recentMessages contextInstructions : String) : List (String × String) :=
  nebiusAnalysisMessages previousText currentText myUsername lastResponse recentMessages

/-- End-to-end verdict of the Ollama `analyzeConversation` under a deterministic
model of the language backend (`model` maps the prompt to the raw response) and
the `JSON.parse` primitive. -/
def ollamaAnalyzeConversationVerdict (model : String → String)
    (jsonParse : String → Option ConversationVerdict)
    (previousOcrText currentOcrText myUsername lastAIResponse recentChatHistory :
      String) : ConversationVerdict :=
  analyzeConversationParse jsonParse
    (model (ollamaAnalysisPrompt previousOcrText currentOcrText myUsername
      lastAIResponse recentChatHistory))

/-- End-to-end verdict of the Ollama backend when called from the Discord path
with six arguments. -/
def discordOllamaAnalyzeConversationVerdict (model : String → String)
    (jsonParse : String → Option ConversationVerdict)
    (previousText currentText myUsername lastResponse recentMessages
      contextInstructions : String) : ConversationVerdict :=
  ollamaAnalyzeConversationVerdict model jsonParse previousText currentText
    myUsername lastResponse recentMessages

/-! ## Concrete states and verdicts used by the witnesses -/

/-- The reply path did not fire in step result `r` starting from state `s`: chat
history, message history, the processing flag and the last-message cell are
untouched, and no reply-dispatch or send event was emitted. -/
def replyPathSilent (s : SessionState) (r : SessionState × List Event) : Prop :=
  r.1.chatHistory = s.chatHistory ∧ r.1.messageHistory = s.messageHistory ∧
  r.1.processingMessage = s.processingMessage ∧ r.1.lastMessage = s.lastMessage ∧
  ∀ e ∈ r.2, eventIsReplyStart e = false ∧ eventIsSend e = false

/-- A session state that is mid-processing: the flag is set while a reply is being
generated. -/
def busySession : SessionState :=
  { monitoring := true
    processingMessage := true
    initialGreetingSent := false
    lastOcrText := "Hello"
    previousOcrText := "Hello"
    lastAIResponse := ""
    lastMessage := ""
    chatHistory := []
    messageHistory := [] }

/-- A quiet session whose last own response is non-empty. -/
def echoSession : SessionState :=
  { monitoring := true
    processingMessage := false
    initialGreetingSent := false
    lastOcrText := "Hello"
    previousOcrText := "Hello"
    lastAIResponse := "sounds good!"
    lastMessage := ""
    chatHistory := []
    messageHistory := [] }

/-- A verdict whose detected message merely re-captures the own last
response. -/
def echoVerdict : ConversationVerdict :=
  { newMessageDetected := true
    shouldReply := true
    message := "yeah sounds good! see you"
    sender := "Alex"
    reasoning := "text changed" }

/-- A freshly started monitoring session: active, nothing processed, no greeting
sent yet. -/
def readySession : SessionState :=
  { monitoring := true
    processingMessage := false
    initialGreetingSent := false
    lastOcrText := "Hello"
    previousOcrText := "Hello"
    lastAIResponse := ""
    lastMessage := ""
    chatHistory := []
    messageHistory := [] }

/-- A session stopped while a greeting generation was in flight: `stop()` cleared
the monitoring flag, the greeting flags were set before the awaited call. -/
def stoppedGreetingSession : SessionState :=
  { monitoring := false
    processingMessage := true
    initialGreetingSent := true
    lastOcrText := "Hello"
    previousOcrText := "Hello"
    lastAIResponse := ""
    lastMessage := ""
    chatHistory := []
    messageHistory := [] }

/-- A session stopped while a reply generation was in flight. -/
def stoppedReplySession : SessionState :=
  { monitoring := false
    processingMessage := true
    initialGreetingSent := false
    lastOcrText := "Hello"
    previousOcrText := "Hello"
    lastAIResponse := ""
    lastMessage := ""
    chatHistory := []
    messageHistory := [] }


/-! ## Helper lemmas -/

/-- A benign fetch (no data, non-OCR item, or empty/unchanged OCR text) leaves an
initialized monitor completely unchanged and emits nothing. -/
theorem pollWhatsAppOcr_benign (m : MonitorState) (f : FetchResult)
    (hbase : m.baselineStarted = true) (hb : benignFetch m.lastOcrText f) :
    pollWhatsAppOcr m f = (m, []) := by
  cases f with
  | throws => exact absurd hb id
  | noData => rfl
  | item itemType text timestamp =>
    unfold pollWhatsAppOcr
    dsimp only
    rcases hb with hty | htext | hsame
    · rw [if_neg hty]
    · by_cases hty : itemType = "OCR"
      · rw [if_pos hty, if_neg (by simp [hbase]), if_neg (fun hcon => hcon.1 htext)]
      · rw [if_neg hty]
    · by_cases hty : itemType = "OCR"
      · rw [if_pos hty, if_neg (by simp [hbase]), if_neg (fun hcon => hcon.2 hsame)]
      · rw [if_neg hty]

/-- A run of benign fetches over an initialized monitor is a complete no-op. -/
theorem runMonitorPolls_benign (fetches : List FetchResult) (m : MonitorState)
    (hbase : m.baselineStarted = true)
    (hbenign : ∀ f ∈ fetches, benignFetch m.lastOcrText f) :
    runMonitorPolls m fetches = (m, []) := by
  induction fetches with
  | nil => rfl
  | cons f rest ih =>
    have hf : benignFetch m.lastOcrText f := hbenign f (List.mem_cons_self f rest)
    have hrest : ∀ g ∈ rest, benignFetch m.lastOcrText g :=
      fun g hg => hbenign g (List.mem_cons_of_mem f hg)
    unfold runMonitorPolls
    rw [pollWhatsAppOcr_benign m f hbase hf, ih hrest]
    rfl

/-- `pollWhatsAppOcr` never touches the `isRunning` flag. -/
theorem pollWhatsAppOcr_isRunning (m : MonitorState) (f : FetchResult) :
    (pollWhatsAppOcr m f).1.isRunning = m.isRunning := by
  cases f <;> unfold pollWhatsAppOcr <;> dsimp only <;>
    first
    | rfl
    | (split_ifs <;> rfl)

/-- While the processing flag is set, `analyzeConversationChanges` returns
immediately: the state is untouched and no event (in particular no analyzer
call) is emitted. -/
theorem analyzeConversationChanges_processing (s : SessionState) (cur : String)
    (prevArg : Option String) (verdict : Except String ConversationVerdict)
    (now : Nat) (h : s.processingMessage = true) :
    analyzeConversationChanges s cur prevArg verdict now = (s, []) := by
  by_cases h1 : cur = ""
  · unfold analyzeConversationChanges
    rw [if_pos h1]
  · unfold analyzeConversationChanges
    rw [if_neg h1, if_pos h]

/-- Any interleaving of poll-driven analysis callbacks while the processing flag
is set is a complete no-op. -/
theorem runAnalyzePolls_processing (inputs : List AnalyzeInput) (s : SessionState)
    (h : s.processingMessage = true) :
    runAnalyzePolls s inputs = (s, []) := by
  induction inputs with
  | nil => rfl
  | cons i rest ih =>
    unfold runAnalyzePolls
    rw [analyzeConversationChanges_processing s i.currentText i.previousTextArg
      i.verdict i.now h]
    dsimp only
    rw [ih]
    rfl

/-- `generateAndSendAIResponse` resets the processing flag on every path —
placeholder, success, thrown generation error, and the stopped-monitoring
branch alike (the `finally` clause). -/
theorem generateAndSendAIResponse_resets (s : SessionState) (provider : AIProvider)
    (busy : Bool) (genResult : Except String String) (user : String) (now : Nat) :
    (generateAndSendAIResponse s provider busy genResult user now).1.processingMessage =
      false := by
  cases provider <;> cases busy <;> cases genResult <;>
    simp only [generateAndSendAIResponse] <;>
    first
    | rfl
    | (split_ifs <;> rfl)

/-- Whenever the stored last own response is non-empty and contained in the
message of the verdict, `analyzeConversationChanges` leaves the reply path silent. -/
theorem analyzeConversationChanges_echo (s : SessionState) (cur : String)
    (prevArg : Option String) (v : ConversationVerdict) (now : Nat)
    (hne : s.lastAIResponse ≠ "")
    (hinc : strIncludes v.message s.lastAIResponse = true) :
    replyPathSilent s (analyzeConversationChanges s cur prevArg (Except.ok v) now) := by
  unfold replyPathSilent analyzeConversationChanges
  dsimp only
  split_ifs <;>
    first
    | exact absurd (show s.lastAIResponse ≠ "" ∧
          strIncludes v.message s.lastAIResponse = true from ⟨hne, hinc⟩)
        (by assumption)
    | (refine ⟨rfl, rfl, rfl, rfl, ?_⟩
       intro e he
       first
       | exact absurd he (List.not_mem_nil e)
       | (rw [List.mem_singleton] at he; subst he; exact ⟨rfl, rfl⟩))

/-- The same echo guard in `analyzeDiscordConversation`. -/
theorem analyzeDiscordConversation_echo (s : SessionState) (cur : String)
    (prevArg : Option String) (dctx : Option DiscordContext)
    (v : ConversationVerdict) (now : Nat)
    (hne : s.lastAIResponse ≠ "")
    (hinc : strIncludes v.message s.lastAIResponse = true) :
    replyPathSilent s
      (analyzeDiscordConversation s cur prevArg dctx (Except.ok v) now) := by
  unfold replyPathSilent analyzeDiscordConversation
  cases prevArg <;> dsimp only <;>
    split_ifs <;>
    first
    | exact absurd (show s.lastAIResponse ≠ "" ∧
          strIncludes v.message s.lastAIResponse = true from ⟨hne, hinc⟩)
        (by assumption)
    | (refine ⟨rfl, rfl, rfl, rfl, ?_⟩
       intro e he
       first
       | exact absurd he (List.not_mem_nil e)
       | (rw [List.mem_singleton] at he; subst he; exact ⟨rfl, rfl⟩))

/-! ## Claim theorems -/

/-- C1: single-flight guard.  While the processing-in-flight flag
(`processingMessageRef`) is true, `analyzeConversationChanges` returns
immediately without calling the Analyzer and without touching the state — for a
single poll and for any interleaved sequence of poll callbacks alike — and every
`generateAndSendAIResponse` processing sequence resets the flag to false when it
completes, whether the generation succeeds, is short-circuited by the busy
placeholder, or throws. -/
theorem C1_single_flight_guard (s s2 : SessionState) (cur : String)
    (prevArg : Option String) (verdict : Except String ConversationVerdict)
    (now : Nat) (inputs : List AnalyzeInput) (provider : AIProvider) (busy : Bool)
    (genResult : Except String String) (user : String) (now2 : Nat)
    (h : s.processingMessage = true) :
    analyzeConversationChanges s cur prevArg verdict now = (s, []) ∧
    runAnalyzePolls s inputs = (s, []) ∧
    (generateAndSendAIResponse s2 provider busy genResult user now2).1.processingMessage =
      false :=
  ⟨analyzeConversationChanges_processing s cur prevArg verdict now h,
   runAnalyzePolls_processing inputs s h,
   generateAndSendAIResponse_resets s2 provider busy genResult user now2⟩

/-- Witness for C1 at a concrete mid-processing session. -/
theorem C1_single_flight_guard_witness :
    busySession.processingMessage = true ∧
    analyzeConversationChanges busySession "Hello\nnew line" none
        (Except.ok { newMessageDetected := true, shouldReply := true,
                     message := "new line", sender := "Alex", reasoning := "r" }) 5 =
      (busySession, []) ∧
    runAnalyzePolls busySession
        [{ currentText := "Hello\nA", previousTextArg := none,
           verdict := Except.error "boom", now := 1 },
         { currentText := "Hello\nB", previousTextArg := some "Hello",
           verdict := Except.ok { newMessageDetected := true, shouldReply := true,
                                  message := "B", sender := "A", reasoning := "" },
           now := 2 }] =
      (busySession, []) ∧
    (generateAndSendAIResponse busySession AIProvider.ollama false
        (Except.error "network down") "me" 9).1.processingMessage = false :=
  ⟨rfl,
   (C1_single_flight_guard busySession busySession "Hello\nnew line" none
      (Except.ok { newMessageDetected := true, shouldReply := true,
                   message := "new line", sender := "Alex", reasoning := "r" }) 5
      [{ currentText := "Hello\nA", previousTextArg := none,
         verdict := Except.error "boom", now := 1 },
       { currentText := "Hello\nB", previousTextArg := some "Hello",
         verdict := Except.ok { newMessageDetected := true, shouldReply := true,
                                message := "B", sender := "A", reasoning := "" },
         now := 2 }]
      AIProvider.ollama false (Except.error "network down") "me" 9 rfl).1,
   (C1_single_flight_guard busySession busySession "Hello\nnew line" none
      (Except.ok { newMessageDetected := true, shouldReply := true,
                   message := "new line", sender := "Alex", reasoning := "r" }) 5
      [{ currentText := "Hello\nA", previousTextArg := none,
         verdict := Except.error "boom", now := 1 },
       { currentText := "Hello\nB", previousTextArg := some "Hello",
         verdict := Except.ok { newMessageDetected := true, shouldReply := true,
                                message := "B", sender := "A", reasoning := "" },
           now := 2 }]
      AIProvider.ollama false (Except.error "network down") "me" 9 rfl).2.1,
   (C1_single_flight_guard busySession busySession "Hello\nnew line" none
      (Except.ok { newMessageDetected := true, shouldReply := true,
                   message := "new line", sender := "Alex", reasoning := "r" }) 5
      [{ currentText := "Hello\nA", previousTextArg := none,
         verdict := Except.error "boom", now := 1 },
       { currentText := "Hello\nB", previousTextArg := some "Hello",
         verdict := Except.ok { newMessageDetected := true, shouldReply := true,
                                message := "B", sender := "A", reasoning := "" },
           now := 2 }]
      AIProvider.ollama false (Except.error "network down") "me" 9 rfl).2.2⟩

/-- C2: self-echo guard.  For every verdict returned by the Analyzer with
`newMessageDetected` and `shouldReply` both true, if the stored last own
response is non-empty and is a substring of the message of the verdict, the reply
path does not fire, in the WhatsApp and the Discord analysis step alike: no
response generation is dispatched, nothing is sent, and the message is appended
neither to the chat history nor to the message history. -/
theorem C2_self_echo_guard (s : SessionState) (cur : String)
    (prevArg : Option String) (dctx : Option DiscordContext)
    (v : ConversationVerdict) (now : Nat)
    (hnew : v.newMessageDetected = true) (hrep : v.shouldReply = true)
    (hne : s.lastAIResponse ≠ "")
    (hinc : strIncludes v.message s.lastAIResponse = true) :
    replyPathSilent s (analyzeConversationChanges s cur prevArg (Except.ok v) now) ∧
    replyPathSilent s
      (analyzeDiscordConversation s cur prevArg dctx (Except.ok v) now) :=
  ⟨analyzeConversationChanges_echo s cur prevArg v now hne hinc,
   analyzeDiscordConversation_echo s cur prevArg dctx v now hne hinc⟩

/-- Witness for C2 at a concrete echoing verdict. -/
theorem C2_self_echo_guard_witness :
    (echoVerdict.newMessageDetected = true ∧ echoVerdict.shouldReply = true ∧
     echoSession.lastAIResponse ≠ "" ∧
     strIncludes echoVerdict.message echoSession.lastAIResponse = true) ∧
    replyPathSilent echoSession
      (analyzeConversationChanges echoSession "Hello\nyeah sounds good! see you"
        (some "Hello") (Except.ok echoVerdict) 3) ∧
    replyPathSilent echoSession
      (analyzeDiscordConversation echoSession "Hello\nyeah sounds good! see you"
        (some "Hello")
        (some { type := some "direct_message", username := some "Alex",
                channelName := none })
        (Except.ok echoVerdict) 3) :=
  ⟨⟨rfl, rfl, by decide, by decide⟩,
   (C2_self_echo_guard echoSession "Hello\nyeah sounds good! see you" (some "Hello")
      (some { type := some "direct_message", username := some "Alex",
              channelName := none })
      echoVerdict 3 rfl rfl (by decide) (by decide)).1,
   (C2_self_echo_guard echoSession "Hello\nyeah sounds good! see you" (some "Hello")
      (some { type := some "direct_message", username := some "Alex",
              channelName := none })
      echoVerdict 3 rfl rfl (by decide) (by decide)).2⟩

/-- C3: unchanged or empty snapshots are no-ops.  Over any sequence of polls whose
fetched results carry no data, a non-OCR item, or OCR text that is empty or equal
to the stored last-seen text, the monitor emits no `onNewOcrDetected` callback
(hence the Conversation Analyzer is never invoked downstream and no reply is ever
sent) and its stored last-seen text never changes; and on the first poll whose
OCR text is non-empty and different, the monitor updates its stored last-seen
text and only then invokes the detection callback, handing it the new text and
the previous one — independently of whether a reply is later produced. -/
theorem C3_unchanged_snapshots_noop (m : MonitorState) (fetches : List FetchResult)
    (text ts : String) (hbase : m.baselineStarted = true)
    (hbenign : ∀ f ∈ fetches, benignFetch m.lastOcrText f)
    (hne : text ≠ "") (hdiff : text ≠ m.lastOcrText) :
    runMonitorPolls m fetches = (m, []) ∧
    pollWhatsAppOcr m (FetchResult.item "OCR" text ts) =
      ({ m with lastOcrText := text, lastTimestamp := ts },
       [MEvent.ocrDetected text ts m.lastOcrText]) := by
  constructor
  · exact runMonitorPolls_benign fetches m hbase hbenign
  · unfold pollWhatsAppOcr
    dsimp only
    rw [if_pos rfl, if_neg (by simp [hbase]), if_pos ⟨hne, hdiff⟩]

/-- Witness for C3 at a concrete baseline and poll sequence. -/
theorem C3_unchanged_snapshots_noop_witness :
    ((initMonitorState "Hello" "t0").baselineStarted = true ∧
     (∀ f ∈ ([FetchResult.noData, FetchResult.item "OCR" "" "t1",
              FetchResult.item "OCR" "Hello" "t2"] : List FetchResult),
        benignFetch (initMonitorState "Hello" "t0").lastOcrText f) ∧
     "Hello\nHi, how are you?" ≠ "" ∧
     "Hello\nHi, how are you?" ≠ (initMonitorState "Hello" "t0").lastOcrText) ∧
    runMonitorPolls (initMonitorState "Hello" "t0")
        [FetchResult.noData, FetchResult.item "OCR" "" "t1",
         FetchResult.item "OCR" "Hello" "t2"] =
      (initMonitorState "Hello" "t0", []) ∧
    pollWhatsAppOcr (initMonitorState "Hello" "t0")
        (FetchResult.item "OCR" "Hello\nHi, how are you?" "t3") =
      ({ initMonitorState "Hello" "t0" with
          lastOcrText := "Hello\nHi, how are you?", lastTimestamp := "t3" },
       [MEvent.ocrDetected "Hello\nHi, how are you?" "t3"
         (initMonitorState "Hello" "t0").lastOcrText]) :=
  ⟨⟨by decide, by decide, by decide, by decide⟩,
   C3_unchanged_snapshots_noop (initMonitorState "Hello" "t0")
     [FetchResult.noData, FetchResult.item "OCR" "" "t1",
      FetchResult.item "OCR" "Hello" "t2"]
     "Hello\nHi, how are you?" "t3" (by decide) (by decide) (by decide) (by decide)⟩

/-- C7: the polling loop terminates only on explicit stop.  A cycle never changes
`isRunning`; a cycle whose OCR fetch throws reports the error to `onError`,
leaves the loop running and schedules the next poll; `stop()` clears `isRunning`
and the pending timer; and a cycle attempted after `stop()` runs no poll, emits
nothing, and schedules nothing. -/
theorem C7_loop_stops_only_on_stop (m : MonitorState) (f g : FetchResult)
    (hrun : m.isRunning = true) :
    (startPollingCycle m f).1.isRunning = m.isRunning ∧
    ((startPollingCycle m FetchResult.throws).2.1 = [MEvent.errorReported] ∧
     (startPollingCycle m FetchResult.throws).1.pollingTimerSet = true ∧
     (startPollingCycle m FetchResult.throws).1.isRunning = true) ∧
    ((stopMonitoring m).isRunning = false ∧ (stopMonitoring m).pollingTimerSet = false) ∧
    ((startPollingCycle (stopMonitoring m) g).2.2 = false ∧
     (startPollingCycle (stopMonitoring m) g).2.1 = [] ∧
     (startPollingCycle (stopMonitoring m) g).1.pollingTimerSet = false ∧
     (startPollingCycle (stopMonitoring m) g).1.isRunning = false) := by
  refine ⟨?_, ?_, ⟨rfl, rfl⟩, ?_⟩
  · by_cases h : m.isRunning = false
    · simp [startPollingCycle, h]
    · simp [startPollingCycle, h, pollWhatsAppOcr_isRunning]
  · simp [startPollingCycle, pollWhatsAppOcr, hrun]
  · simp [startPollingCycle, stopMonitoring]

/-- Witness for C7 at a concrete running monitor. -/
theorem C7_loop_stops_only_on_stop_witness :
    (initMonitorState "base" "t0").isRunning = true ∧
    ((startPollingCycle (initMonitorState "base" "t0") FetchResult.noData).1.isRunning =
       (initMonitorState "base" "t0").isRunning ∧
     ((startPollingCycle (initMonitorState "base" "t0") FetchResult.throws).2.1 =
        [MEvent.errorReported] ∧
      (startPollingCycle (initMonitorState "base" "t0") FetchResult.throws).1.pollingTimerSet =
        true ∧
      (startPollingCycle (initMonitorState "base" "t0") FetchResult.throws).1.isRunning =
        true) ∧
     ((stopMonitoring (initMonitorState "base" "t0")).isRunning = false ∧
      (stopMonitoring (initMonitorState "base" "t0")).pollingTimerSet = false) ∧
     ((startPollingCycle (stopMonitoring (initMonitorState "base" "t0"))
          FetchResult.noData).2.2 = false ∧
      (startPollingCycle (stopMonitoring (initMonitorState "base" "t0"))
          FetchResult.noData).2.1 = [] ∧
      (startPollingCycle (stopMonitoring (initMonitorState "base" "t0"))
          FetchResult.noData).1.pollingTimerSet = false ∧
      (startPollingCycle (stopMonitoring (initMonitorState "base" "t0"))
          FetchResult.noData).1.isRunning = false)) :=
  ⟨by decide,
   C7_loop_stops_only_on_stop (initMonitorState "base" "t0") FetchResult.noData
     FetchResult.noData (by decide)⟩

/-- C4: malformed (non-JSON) language-model output never raises past the Analyzer.
For every raw model output on which the JSON parse of the extracted string fails
(direct parse and fenced/embedded extraction alike feed this single parse),
`analyzeConversation` returns — `analyzeConversationParse` is a total function —
a well-formed verdict whose `sender` is `"unknown"`, whose `message` is the raw
text, and whose boolean fields come from keyword search over the lowercased raw
text.  The same parsing tail appears verbatim in both backends. -/
theorem C4_malformed_output_degrades
    (jsonParse : String → Option ConversationVerdict) (analysisText : String)
    (h : jsonParse (extractJsonStr analysisText) = none) :
    analyzeConversationParse jsonParse analysisText =
      { newMessageDetected :=
          strIncludes (jsToLowerCase analysisText) "new message detected" ||
            strIncludes (jsToLowerCase analysisText) "should reply"
        shouldReply :=
          strIncludes (jsToLowerCase analysisText) "should reply" ||
            strIncludes (jsToLowerCase analysisText) "new message detected"
        message := analysisText
        sender := "unknown"
        reasoning := "Failed to parse structured response" } ∧
    (analyzeConversationParse jsonParse analysisText).sender = "unknown" := by
  unfold analyzeConversationParse
  rw [h]
  exact ⟨rfl, rfl⟩

/-- Witness for C4: a parser that fails on the extracted string of a prose reply. -/
theorem C4_malformed_output_degrades_witness :
    (fun _ : String => (none : Option ConversationVerdict))
        (extractJsonStr "The user has sent a new message and you should reply.") =
      none ∧
    analyzeConversationParse (fun _ => none)
        "The user has sent a new message and you should reply." =
      { newMessageDetected :=
          strIncludes
            (jsToLowerCase "The user has sent a new message and you should reply.")
            "new message detected" ||
          strIncludes
            (jsToLowerCase "The user has sent a new message and you should reply.")
            "should reply"
        shouldReply :=
          strIncludes
            (jsToLowerCase "The user has sent a new message and you should reply.")
            "should reply" ||
          strIncludes
            (jsToLowerCase "The user has sent a new message and you should reply.")
            "new message detected"
        message := "The user has sent a new message and you should reply."
        sender := "unknown"
        reasoning := "Failed to parse structured response" } ∧
    (analyzeConversationParse (fun _ => none)
        "The user has sent a new message and you should reply.").sender =
      "unknown" :=
  ⟨rfl,
   (C4_malformed_output_degrades (fun _ => none)
      "The user has sent a new message and you should reply." rfl).1,
   (C4_malformed_output_degrades (fun _ => none)
      "The user has sent a new message and you should reply." rfl).2⟩

/-- C5 counterexample: the Ollama variant of `generateInitialGreeting` has no
`catch`, so a backend error propagates to the caller instead of being replaced
by the hard-coded fallback greeting — the claim fails for the Ollama backend. -/
theorem C5_counterexample :
    ollamaGenerateInitialGreeting (Except.error "Failed to call Ollama") =
      Except.error "Failed to call Ollama" ∧
    ollamaGenerateInitialGreeting (Except.error "Failed to call Ollama") ≠
      Except.ok nebiusFallbackGreeting :=
  ⟨rfl, fun hcontra => Except.noConfusion hcontra⟩

/-- C5 amended: only the Nebius variant of `generateInitialGreeting` replaces every
backend error with the fixed non-empty fallback greeting; the Ollama variant
propagates the error to its caller, where `sendInitialGreeting` catches it and
sends nothing (so no empty greeting is ever produced, but not via an
Ollama-level fallback). -/
theorem C5_greeting_fallback_amended (e : String) :
    nebiusGenerateInitialGreeting (Except.error e) = Except.ok nebiusFallbackGreeting ∧
    nebiusFallbackGreeting ≠ "" ∧
    ollamaGenerateInitialGreeting (Except.error e) = Except.error e ∧
    (∀ (s : SessionState) (myUsername : String) (now : Nat),
      (sendInitialGreetingFinish s myUsername (Except.error e) now).2 = []) := by
  refine ⟨rfl, by decide, rfl, fun s myUsername now => rfl⟩

/-- Witness for C5 amended at a concrete backend error. -/
theorem C5_greeting_fallback_amended_witness :
    nebiusGenerateInitialGreeting (Except.error "network error") =
      Except.ok nebiusFallbackGreeting ∧
    ollamaGenerateInitialGreeting (Except.error "network error") =
      Except.error "network error" ∧
    (sendInitialGreetingFinish readySession "me" (Except.error "network error")
        21).2 = [] :=
  ⟨(C5_greeting_fallback_amended "network error").1,
   (C5_greeting_fallback_amended "network error").2.2.1,
   (C5_greeting_fallback_amended "network error").2.2.2 readySession "me" 21⟩

/-- Once the greeting-sent flag is set, the greeting timer callback is a complete
no-op: neither guard (in the timer nor in `sendInitialGreeting` itself) lets the body
run. -/
theorem greetingTimerFire_sent (s : SessionState)
    (h : s.initialGreetingSent = true) : greetingTimerFire s = (s, false) := by
  unfold greetingTimerFire
  rw [if_neg (fun hc => by simp [h] at hc)]

/-- The greeting continuation never clears the greeting-sent flag. -/
theorem sendInitialGreetingFinish_sent (s : SessionState) (myUsername : String)
    (greetResult : Except String String) (now : Nat) :
    (sendInitialGreetingFinish s myUsername greetResult now).1.initialGreetingSent =
      s.initialGreetingSent := by
  unfold sendInitialGreetingFinish
  cases greetResult <;> rfl

/-- C6: at most one initial greeting per monitoring session.  The timer body runs
only when monitoring is active, no greeting has been sent and nothing is being
processed; when it does run, the greeting-sent flag is already set in its
synchronous head (before any awaited work) and stays set through the
continuation, so a second firing of the greeting path — however it was scheduled
— is a no-op that sends nothing. -/
theorem C6_greeting_once (s : SessionState) (myUsername : String)
    (greetResult : Except String String) (now : Nat) :
    (s.initialGreetingSent = true → greetingTimerFire s = (s, false)) ∧
    ((greetingTimerFire s).2 = true →
      (s.monitoring = true ∧ s.initialGreetingSent = false ∧
        s.processingMessage = false) ∧
      (greetingTimerFire s).1.initialGreetingSent = true ∧
      (sendInitialGreetingFinish (greetingTimerFire s).1 myUsername greetResult
          now).1.initialGreetingSent = true ∧
      greetingTimerFire
          (sendInitialGreetingFinish (greetingTimerFire s).1 myUsername greetResult
            now).1 =
        ((sendInitialGreetingFinish (greetingTimerFire s).1 myUsername greetResult
            now).1,
         false)) := by
  constructor
  · exact greetingTimerFire_sent s
  · intro h2
    by_cases hc : s.monitoring = true ∧ s.initialGreetingSent = false ∧
        s.processingMessage = false
    · have hfire : greetingTimerFire s =
          ({ s with initialGreetingSent := true, processingMessage := true }, true) := by
        unfold greetingTimerFire sendInitialGreetingStart
        rw [if_pos hc, if_neg]
        rintro (hd | hd | hd)
        · rw [hc.1] at hd; exact Bool.noConfusion hd
        · rw [hc.2.1] at hd; exact Bool.noConfusion hd
        · rw [hc.2.2] at hd; exact Bool.noConfusion hd
      have hsent : (greetingTimerFire s).1.initialGreetingSent = true := by
        rw [hfire]
      refine ⟨hc, hsent, ?_, ?_⟩
      · rw [sendInitialGreetingFinish_sent]; exact hsent
      · exact greetingTimerFire_sent _
          (by rw [sendInitialGreetingFinish_sent]; exact hsent)
    · exfalso
      have hnofire : greetingTimerFire s = (s, false) := by
        unfold greetingTimerFire
        rw [if_neg hc]
      rw [hnofire] at h2
      exact Bool.noConfusion h2

/-- Witness for C6: after the full first greeting sequence on a fresh session, a
second firing of the greeting timer is a no-op. -/
theorem C6_greeting_once_witness :
    (greetingTimerFire readySession).2 = true ∧
    greetingTimerFire
        (sendInitialGreetingFinish (greetingTimerFire readySession).1 "me"
          (Except.ok "hello there") 7).1 =
      ((sendInitialGreetingFinish (greetingTimerFire readySession).1 "me"
          (Except.ok "hello there") 7).1,
       false) :=
  ⟨by decide,
   ((C6_greeting_once readySession "me" (Except.ok "hello there") 7).2
      (by decide)).2.2.2⟩

/-- C8 counterexample: the greeting path checks the session flags only before its
awaited model call; when that call resolves after `stop()` has cleared the
monitoring flag, the greeting is still sent — so "no send occurs after stop" does
not hold for every reply-or-greeting sequence. -/
theorem C8_counterexample :
    stoppedGreetingSession.monitoring = false ∧
    (sendInitialGreetingFinish stoppedGreetingSession "me"
        (Except.ok "hey, how have you been?") 4).2 =
      [Event.sent "hey, how have you been?"] := by
  constructor
  · rfl
  · decide

/-- C8 amended: the reply path (`generateAndSendAIResponse`) checks the
session-active flag when its model call resolves and sends nothing if the
session was stopped; the greeting path (`sendInitialGreeting`) performs no such
re-check, and a greeting generation that resolves after `stop()` is still sent. -/
theorem C8_late_responses_amended (s sg : SessionState) (provider : AIProvider)
    (busy : Bool) (genResult : Except String String) (myUsername : String)
    (now : Nat) (g : String)
    (h : s.monitoring = false) (hg : sg.monitoring = false) :
    (generateAndSendAIResponse s provider busy genResult myUsername now).2 = [] ∧
    (sendInitialGreetingFinish sg myUsername (Except.ok g) now).2 =
      [Event.sent (if g = "" ∨ jsTrim g = "" then whatsappFallbackGreeting else g)] := by
  constructor
  · cases provider <;> cases busy <;> cases genResult <;>
      simp [generateAndSendAIResponse, h]
  · rfl

/-- Witness for C8 amended at concrete stopped sessions. -/
theorem C8_late_responses_amended_witness :
    (stoppedReplySession.monitoring = false ∧
     stoppedGreetingSession.monitoring = false) ∧
    (generateAndSendAIResponse stoppedReplySession AIProvider.nebius false
        (Except.ok "late reply") "me" 11).2 = [] ∧
    (sendInitialGreetingFinish stoppedGreetingSession "me"
        (Except.ok "late greeting") 11).2 =
      [Event.sent
        (if "late greeting" = "" ∨ jsTrim "late greeting" = "" then
          whatsappFallbackGreeting
        else "late greeting")] :=
  ⟨⟨rfl, rfl⟩,
   (C8_late_responses_amended stoppedReplySession stoppedGreetingSession
      AIProvider.nebius false (Except.ok "late reply") "me" 11 "late greeting"
      rfl rfl).1,
   (C8_late_responses_amended stoppedReplySession stoppedGreetingSession
      AIProvider.nebius false (Except.ok "late reply") "me" 11 "late greeting"
      rfl rfl).2⟩

/-- The chunks produced by the typing regex concatenate to the input with every
line-terminator character removed. -/
theorem jsChunksAux_flatten (l : List Char) : ∀ acc : List Char,
    (jsChunksAux acc l).flatten = acc.reverse ++ l.filter isDotChar := by
  induction l with
  | nil =>
    intro acc
    unfold jsChunksAux
    split
    · simp_all
    · simp
  | cons c rest ih =>
    intro acc
    unfold jsChunksAux
    by_cases hd : isDotChar c
    · rw [if_pos hd]
      by_cases hl : (c :: acc).length = 15
      · rw [if_pos hl]
        simp [ih, List.filter_cons, hd]
      · rw [if_neg hl, ih]
        simp [List.filter_cons, hd]
    · rw [if_neg hd]
      by_cases ha : acc = []
      · rw [if_pos ha, ih, ha]
        simp [List.filter_cons, hd]
      · rw [if_neg ha]
        simp [ih, List.filter_cons, hd]

/-- Every chunk produced by the typing regex has between 1 and 15 characters. -/
theorem jsChunksAux_chunk_length (l : List Char) : ∀ acc : List Char,
    acc.length < 15 → ∀ ch ∈ jsChunksAux acc l, 1 ≤ ch.length ∧ ch.length ≤ 15 := by
  induction l with
  | nil =>
    intro acc hacc ch hch
    unfold jsChunksAux at hch
    split at hch
    · cases hch
    · rw [List.mem_singleton] at hch
      subst hch
      rename_i ha
      constructor
      · simp [Nat.one_le_iff_ne_zero, List.length_reverse]
        intro hz
        exact ha hz
      · simp [List.length_reverse]
        omega
  | cons c rest ih =>
    intro acc hacc ch hch
    unfold jsChunksAux at hch
    by_cases hd : isDotChar c
    · rw [if_pos hd] at hch
      by_cases hl : (c :: acc).length = 15
      · rw [if_pos hl] at hch
        rcases List.mem_cons.mp hch with hch | hch
        · subst hch
          simp only [List.length_cons] at hl
          constructor <;> simp [List.length_reverse] <;> omega
        · exact ih [] (by simp) ch hch
      · rw [if_neg hl] at hch
        refine ih (c :: acc) ?_ ch hch
        simp only [List.length_cons] at hl ⊢
        omega
    · rw [if_neg hd] at hch
      by_cases ha : acc = []
      · rw [if_pos ha] at hch
        exact ih [] (by simp) ch hch
      · rw [if_neg ha] at hch
        rcases List.mem_cons.mp hch with hch | hch
        · subst hch
          constructor
          · simp [Nat.one_le_iff_ne_zero, List.length_reverse]
            intro hz
            exact ha hz
          · simp [List.length_reverse]
            omega
        · exact ih [] (by simp) ch hch

/-- The typing loop types exactly the chunk list, in order. -/
theorem typedTexts_typingOps (chunks : List String) :
    typedTexts (typingOps chunks) = chunks := by
  induction chunks with
  | nil => rfl
  | cons c rest ih =>
    show typedTexts (DriverOp.typeText c :: DriverOp.sleep 300 :: typingOps rest) =
      c :: rest
    unfold typedTexts at ih ⊢
    simp only [List.filterMap_cons]
    rw [ih]

/-- The driver trace types exactly the regex chunks of the response text. -/
theorem typedTexts_sendChatResponseTrace (text : String) (app : AppType) :
    typedTexts (sendChatResponseTrace text app) = jsChunks text := by
  have h1 := typedTexts_typingOps (jsChunks text)
  unfold sendChatResponseTrace
  unfold typedTexts at h1 ⊢
  rw [List.filterMap_append, List.filterMap_append, h1]
  simp

/-- The typing loop presses no key. -/
theorem pressCount_typingOps (chunks : List String) (key : String) :
    pressCount (typingOps chunks) key = 0 := by
  induction chunks with
  | nil => rfl
  | cons c rest ih =>
    show pressCount
      (DriverOp.typeText c :: DriverOp.sleep 300 :: typingOps rest) key = 0
    unfold pressCount at ih ⊢
    simp only [List.filter_cons]
    exact ih

/-- The typing loop clicks nothing. -/
theorem clickCount_typingOps (chunks : List String) :
    clickCount (typingOps chunks) = 0 := by
  induction chunks with
  | nil => rfl
  | cons c rest ih =>
    show clickCount
      (DriverOp.typeText c :: DriverOp.sleep 300 :: typingOps rest) = 0
    unfold clickCount at ih ⊢
    simp only [List.filter_cons]
    exact ih

/-- Joining the string chunks equals joining the underlying character lists. -/
theorem joinAll_map_mk (ls : List (List Char)) :
    joinAll (ls.map String.mk) = String.mk ls.flatten := by
  induction ls with
  | nil => rfl
  | cons a rest ih =>
    show String.mk a ++ joinAll (rest.map String.mk) = String.mk (a ++ rest.flatten)
    rw [ih]
    rfl

/-- C9 counterexample: for a response containing a newline, the concatenation of
the typed chunks is not the original string — the regex `/.{1,15}|.+/g` never
matches a line terminator, so the newline is silently dropped and never typed. -/
theorem C9_counterexample :
    typedTexts (sendChatResponseTrace "a\nb" AppType.whatsapp) = ["a", "b"] ∧
    joinAll (typedTexts (sendChatResponseTrace "a\nb" AppType.whatsapp)) = "ab" ∧
    ("ab" : String) ≠ "a\nb" := by
  refine ⟨by decide, by decide, by decide⟩

/-- C9 amended: the driver splits the response into in-order chunks of 1 to 15
characters whose concatenation equals the original string with all
line-terminator characters removed — equal to the original exactly when the text
contains no line terminator — types them in order with a fixed inter-chunk
delay, presses `enter` exactly once after all chunks, and clicks nothing (the
send button is not used). -/
theorem C9_typing_covers_text_amended (text : String) (app : AppType) :
    (∀ chunk ∈ jsChunks text, 1 ≤ chunk.length ∧ chunk.length ≤ 15) ∧
    typedTexts (sendChatResponseTrace text app) = jsChunks text ∧
    joinAll (typedTexts (sendChatResponseTrace text app)) =
      String.mk (text.data.filter isDotChar) ∧
    (text.data.all isDotChar = true →
      joinAll (typedTexts (sendChatResponseTrace text app)) = text) ∧
    pressCount (sendChatResponseTrace text app) "enter" = 1 ∧
    clickCount (sendChatResponseTrace text app) = 0 ∧
    sendChatResponseTrace text app =
      [DriverOp.moveMouse (APP_CONFIGS app).inputBoxX (APP_CONFIGS app).inputBoxY,
       DriverOp.sleep 300, DriverOp.sleep 300, DriverOp.sleep 500] ++
      typingOps (jsChunks text) ++
      [DriverOp.press "enter", DriverOp.sleep 10000] := by
  have hjoin : joinAll (typedTexts (sendChatResponseTrace text app)) =
      String.mk (text.data.filter isDotChar) := by
    rw [typedTexts_sendChatResponseTrace]
    unfold jsChunks
    rw [joinAll_map_mk, jsChunksAux_flatten]
    rfl
  refine ⟨?_, typedTexts_sendChatResponseTrace text app, hjoin, ?_, ?_, ?_, ?_⟩
  · intro chunk hchunk
    unfold jsChunks at hchunk
    rcases List.mem_map.mp hchunk with ⟨ch, hch, rfl⟩
    exact jsChunksAux_chunk_length text.data [] (by simp) ch hch
  · intro hall
    rw [hjoin, List.filter_eq_self.mpr (fun a ha => List.all_eq_true.mp hall a ha)]
  · unfold sendChatResponseTrace pressCount
    rw [List.filter_append, List.filter_append]
    have := pressCount_typingOps (jsChunks text) "enter"
    unfold pressCount at this
    simp [this]
  · unfold sendChatResponseTrace clickCount
    rw [List.filter_append, List.filter_append]
    have := clickCount_typingOps (jsChunks text)
    unfold clickCount at this
    simp [this]
  · rfl

/-- Witness for C9 amended at a concrete newline-free response. -/
theorem C9_typing_covers_text_amended_witness :
    ("hello world, how are you today?" : String).data.all isDotChar = true ∧
    joinAll
        (typedTexts
          (sendChatResponseTrace "hello world, how are you today?" AppType.whatsapp)) =
      "hello world, how are you today?" ∧
    pressCount (sendChatResponseTrace "hello world, how are you today?"
        AppType.whatsapp) "enter" = 1 :=
  ⟨by decide,
   (C9_typing_covers_text_amended "hello world, how are you today?"
      AppType.whatsapp).2.2.2.1 (by decide),
   (C9_typing_covers_text_amended "hello world, how are you today?"
      AppType.whatsapp).2.2.2.2.1⟩

/-- C10: the Discord-specific context instructions have no effect on analysis.
The `analyzeConversation` functions of both backends declare five parameters, so the
sixth argument built and passed by `analyzeDiscordConversation` is dropped by
JavaScript call semantics: for any two context-instruction strings, the Ollama
prompt, the Nebius message array, and the resulting verdict (under any
deterministic model backend and JSON parser) coincide — the Discord context
never reaches the model. -/
theorem C10_discord_context_dropped (previousText currentText myUsername
    lastResponse recentMessages c1 c2 : String) (model : String → String)
    (jsonParse : String → Option ConversationVerdict) :
    discordOllamaAnalysisPrompt previousText currentText myUsername lastResponse
        recentMessages c1 =
      discordOllamaAnalysisPrompt previousText currentText myUsername lastResponse
        recentMessages c2 ∧
    discordNebiusAnalysisMessages previousText currentText myUsername lastResponse
        recentMessages c1 =
      discordNebiusAnalysisMessages previousText currentText myUsername lastResponse
        recentMessages c2 ∧
    discordOllamaAnalyzeConversationVerdict model jsonParse previousText currentText
        myUsername lastResponse recentMessages c1 =
      discordOllamaAnalyzeConversationVerdict model jsonParse previousText
        currentText myUsername lastResponse recentMessages c2 :=
  ⟨rfl, rfl, rfl⟩

end LazyWaba
